import Mathlib

/-
Verification of the plant moisture monitor (src/plant_monitor.py) against its
natural-language specification. The Python source is shallowly embedded:
voltages and thresholds are rationals, the per-plant configuration dictionary
is a structure, the monitoring loop body is a pure state-transition function,
and the GUI calls are recorded as an abstract dispatch list.
-/

namespace PlantMonitor

/-- Moisture states named by the spec; in the source each state is carried by
the status text and color returned from get_moisture_status. -/
inductive MoistureState
  | DRY
  | WET
  | PERFECT
deriving DecidableEq, Repr

/-- The 4-tuple (status_text, status_color, progress_value, show_alert)
returned by get_moisture_status in the source. -/
structure Status where
  status_text : String
  status_color : String
  progress_value : ℚ
  show_alert : Bool
deriving DecidableEq, Repr

/-- The final clamp in get_moisture_status:
progress_value = max(0, min(100, progress_value)). -/
def clamp100 (x : ℚ) : ℚ := max 0 (min 100 x)

/-- Embedding of get_moisture_status (src/plant_monitor.py lines 361-383).
Thresholds are passed directly instead of being looked up in self.config; the
lookup is modelled at the call sites. max_voltage = 3.3 = 33/10. -/
def get_moisture_status (voltage dry_threshold wet_threshold : ℚ) : Status :=
  let max_voltage : ℚ := 33/10
  if voltage < dry_threshold then
    { status_text := "DRY - WATER NEEDED!"
      status_color := "#FF9999"
      progress_value :=
        clamp100 (if dry_threshold > 0 then voltage / dry_threshold * 20 else 0)
      show_alert := true }
  else if voltage > wet_threshold then
    { status_text := "TOO WET"
      status_color := "#99CCFF"
      progress_value :=
        clamp100 (if max_voltage > wet_threshold then
          80 + (voltage - wet_threshold) / (max_voltage - wet_threshold) * 20
        else 100)
      show_alert := false }
  else
    { status_text := "PERFECT"
      status_color := "#99FF99"
      progress_value :=
        clamp100 (if wet_threshold > dry_threshold then
          20 + (voltage - dry_threshold) / (wet_threshold - dry_threshold) * 60
        else 20)
      show_alert := false }

/-- The moisture state a status text denotes (the source uses the literal
texts "DRY - WATER NEEDED!", "TOO WET", "PERFECT"). -/
def Status.state (s : Status) : MoistureState :=
  if s.status_text = "DRY - WATER NEEDED!" then .DRY
  else if s.status_text = "TOO WET" then .WET
  else .PERFECT

/-- The (state, displayValue, isAlert) view of a classifier result. -/
def statusTriple (s : Status) : MoistureState × ℚ × Bool :=
  (s.state, s.progress_value, s.show_alert)

/-- Modelled from the words of the spec (section 4.3 Classifier): the claimed
classification, with the degenerate guards exactly as the spec states them
(displayValue 0 only when dry = 0, 100 only when wet = 3.3, 20 only when
wet = dry). Used to compare the claim against the source function. -/
def classify_spec (voltage dry wet : ℚ) : MoistureState × ℚ × Bool :=
  if voltage < dry then
    (.DRY, if dry = 0 then 0 else clamp100 (voltage / dry * 20), true)
  else if voltage > wet then
    (.WET, if wet = 33/10 then 100
      else clamp100 (80 + (voltage - wet) / (33/10 - wet) * 20), false)
  else
    (.PERFECT, if wet = dry then 20
      else clamp100 (20 + (voltage - dry) / (wet - dry) * 60), false)

/-- One entry of self.config: the per-plant dictionary the source stores
under the key plant_i (dry_threshold, wet_threshold, update_interval, name,
image_path). -/
structure PlantConfig where
  dry_threshold : ℚ
  wet_threshold : ℚ
  update_interval : ℤ
  name : String
  image_path : String
deriving DecidableEq, Repr

/-- Embedding of save_manual (src/plant_monitor.py lines 340-354) for one
plant: the requested dry and wet values are accepted only when
0.0 <= dry <= 3.3, 0.0 <= wet <= 3.3 and dry < wet; on acceptance both
thresholds are written and save_config is called (the returned Bool records
whether a save happened), otherwise the config entry is returned untouched. -/
def save_manual (cfg : PlantConfig) (dry wet : ℚ) : PlantConfig × Bool :=
  if 0 ≤ dry ∧ dry ≤ 33/10 ∧ 0 ≤ wet ∧ wet ≤ 33/10 ∧ dry < wet then
    ({ cfg with dry_threshold := dry, wet_threshold := wet }, true)
  else
    (cfg, false)

/-- The stored last_dry_check string, abstracted by how
datetime.fromisoformat treats it: the empty string (falsy, treated as never
run), an unparseable string (ValueError), or a parseable timestamp carrying
the day number of its calendar date. A timestamp written by isoformat at day
d parses back as stamp d. -/
inductive LastCheck
  | empty
  | invalid
  | stamp (day : ℕ)
deriving DecidableEq, Repr

/-- The computation of do_daily_check (src/plant_monitor.py lines 390-401):
true when last_dry_check is empty, fails to parse, or the current date is
strictly past the stored date. -/
def daily_check_needed (today : ℕ) : LastCheck → Bool
  | .empty => true
  | .invalid => true
  | .stamp d => decide (d < today)

/-- The duck-typed channel object of the source: raw ADC code and voltage. -/
structure Reading where
  value : ℤ
  voltage : ℚ
deriving DecidableEq, Repr

/-- One observable call the loop body makes into the presentation layer:
a root.after update_gui call, or an insertion into / removal from the dry
listbox (the Added and Removed alert events). -/
inductive Dispatch
  | gui (plant : ℕ) (raw : ℤ) (volt : ℚ) (st : Status)
  | addDry (plantName : String)
  | removeDry (plantName : String)
deriving DecidableEq, Repr

/-- The state the monitoring loop reads and writes: plant count, the
hardware_ready flag, the channel slots (None until a sensor reports), the
per-plant config entries, last_dry_check, and the current_dry_plants set of
plant names (the alert set owned by monitor_moisture). Channel and config
lookups are modelled as functions of the plant index; the source only ever
indexes both with 0 <= i < num_plants. -/
structure AppState where
  num_plants : ℕ
  hardware_ready : Bool
  channels : ℕ → Option Reading
  plants : ℕ → PlantConfig
  last_dry_check : LastCheck
  dry_plants : Finset String

/-- The read at the top of the per-plant body (lines 411-416): with
hardware_ready and a non-None channel the stored raw value and voltage are
used; otherwise raw_value = 0 and voltage = random.uniform(0.0, 3.3), the
simulated draw being supplied by the oracle randv. -/
def read_channel (s : AppState) (randv : ℕ → ℚ) (i : ℕ) : ℤ × ℚ :=
  match (if s.hardware_ready then s.channels i else none) with
  | some r => (r.value, r.voltage)
  | none => (0, randv i)

/-- The body of the per-plant loop (lines 410-428): read, classify, dispatch
the GUI update, then maintain current_dry_plants, inserting into the dry
listbox only when the name is not yet in the set and removing when a
non-alerting plant is in the set. -/
def process_plant (s : AppState) (randv : ℕ → ℚ) (i : ℕ) (dry0 : Finset String) :
    Finset String × List Dispatch :=
  let rv := read_channel s randv i
  let st := get_moisture_status rv.2 (s.plants i).dry_threshold (s.plants i).wet_threshold
  let plant_name := (s.plants i).name
  if st.show_alert then
    if plant_name ∈ dry0 then (dry0, [.gui i rv.1 rv.2 st])
    else (insert plant_name dry0, [.gui i rv.1 rv.2 st, .addDry plant_name])
  else if plant_name ∈ dry0 then (dry0.erase plant_name, [.gui i rv.1 rv.2 st, .removeDry plant_name])
  else (dry0, [.gui i rv.1 rv.2 st])

/-- The for-loop over range(num_plants), threading current_dry_plants and
concatenating the dispatches in loop order. -/
def run_plants (s : AppState) (randv : ℕ → ℚ) :
    List ℕ → Finset String → Finset String × List Dispatch
  | [], dry0 => (dry0, [])
  | i :: rest, dry0 =>
    let q := process_plant s randv i dry0
    let p := run_plants s randv rest q.1
    (p.1, q.2 ++ p.2)

/-- One iteration of the while loop of monitor_moisture (lines 387-430):
the daily gate clears current_dry_plants, stamps last_dry_check with the
current timestamp and calls save_config (the second Bool of the result),
then every plant in range(num_plants) is processed. today is the day number
of datetime.now().date(). -/
def monitor_cycle (s : AppState) (today : ℕ) (randv : ℕ → ℚ) :
    AppState × List Dispatch × Bool :=
  let doDaily := daily_check_needed today s.last_dry_check
  let lc := if doDaily then LastCheck.stamp today else s.last_dry_check
  let dry0 := if doDaily then (∅ : Finset String) else s.dry_plants
  let r := run_plants s randv (List.range s.num_plants) dry0
  ({ s with last_dry_check := lc, dry_plants := r.1 }, r.2, doDaily)

/-- The plant indices of the GUI-update dispatches of a cycle, in order. -/
def gui_plants (ds : List Dispatch) : List ℕ :=
  ds.filterMap fun d =>
    match d with
    | .gui i _ _ _ => some i
    | _ => none

/-- The default per-plant config entry (dry 1.5, wet 2.5, interval 2). -/
def demo_plant : PlantConfig :=
  { dry_threshold := 3/2, wet_threshold := 5/2, update_interval := 2,
    name := "Plant 1", image_path := "" }

/-- A one-plant state whose sensor reports 1.0 V (DRY at the default
thresholds), last checked on day 0. -/
def dry_plant_state : AppState :=
  { num_plants := 1, hardware_ready := true,
    channels := fun _ => some ⟨310, 1⟩, plants := fun _ => demo_plant,
    last_dry_check := .stamp 0, dry_plants := ∅ }

/-- The dry status returned for 1.0 V at the default thresholds. -/
def dry_status : Status := ⟨"DRY - WATER NEEDED!", "#FF9999", 40/3, true⟩

/-- Cycle 1 on dry_plant_state, same day as the stored check (gate off). -/
def c2_cycle1 : AppState × List Dispatch × Bool :=
  monitor_cycle dry_plant_state 0 (fun _ => 0)

/-- Cycle 2, after the calendar day rolls over to day 1 (gate fires). -/
def c2_cycle2 : AppState × List Dispatch × Bool :=
  monitor_cycle c2_cycle1.1 1 (fun _ => 0)

/-- A two-plant state reading a PERFECT 2.0 V everywhere, with the gate off
at day 5. -/
def two_plant_state : AppState :=
  { num_plants := 2, hardware_ready := true,
    channels := fun _ => some ⟨620, 2⟩,
    plants := fun i => { demo_plant with name := if i = 0 then "Plant 1" else "Plant 2" },
    last_dry_check := .stamp 5, dry_plants := ∅ }

/-- A one-plant state whose hardware is not ready (server setup failed). -/
def unready_state : AppState :=
  { num_plants := 1, hardware_ready := false,
    channels := fun _ => some ⟨999, 3⟩, plants := fun _ => demo_plant,
    last_dry_check := .stamp 5, dry_plants := ∅ }

/-- The same state with working hardware whose sensor genuinely reads 1.0 V. -/
def ready_state : AppState :=
  { unready_state with hardware_ready := true, channels := fun _ => some ⟨0, 1⟩ }

/-- Python int() truncation toward zero, applied to a rational. -/
def pytrunc (q : ℚ) : ℤ := Int.tdiv q.num (q.den : ℤ)

/-- The channel object built by receive_data for a reported voltage v:
value = int(v * 1023 / 3.3), voltage = v. -/
def mk_reading (v : ℚ) : Reading := ⟨pytrunc (v * 1023 / (33/10)), v⟩

/-- The body of the assignment loop: apply the value the message carries for
index i, if any, to the channel array. -/
def apply_msg (msg : ℕ → Option ℚ) (c : ℕ → Option Reading) (i : ℕ) :
    ℕ → Option Reading :=
  match msg i with
  | some v => Function.update c i (some (mk_reading v))
  | none => c

/-- Embedding of the message-application part of receive_data
(src/plant_monitor.py lines 64-68): after json.loads succeeds, the loop over
range(num_plants) overwrites self.channels[i] for every key plant_i present
in the message, with no validation of the value. The parsed message is
msg : index to optional numeric value; the channel array is a function of
the index. -/
def receive_data (np : ℕ) (ch : ℕ → Option Reading) (msg : ℕ → Option ℚ) :
    ℕ → Option Reading :=
  (List.range np).foldl (apply_msg msg) ch

/-- The channels before the out-of-range message: sensor 0 last reported
1.0 V. -/
def ch_before : ℕ → Option Reading := fun i => if i = 0 then some ⟨310, 1⟩ else none

/-- The parsed ingest message of the spec scenario: plant_0 reports 5.0. -/
def out_of_range_msg : ℕ → Option ℚ := fun i => if i = 0 then some 5 else none

/-- What the source read from the config file, abstracted by how load_config
treats it: the file is missing or unreadable, json.load raises, or it parses
to a dictionary that may or may not carry last_dry_check and each plant_i
key. -/
inductive StoredConfig
  | missing
  | corrupt
  | parsed (last : Option LastCheck) (plants : ℕ → Option PlantConfig)

/-- The per-plant default entry of load_config (lines 81-87). -/
def default_plant (i : ℕ) : PlantConfig :=
  { dry_threshold := 3/2, wet_threshold := 5/2, update_interval := 2,
    name := "Plant " ++ toString (i + 1), image_path := "" }

/-- Embedding of load_config (src/plant_monitor.py lines 78-120): a missing,
unreadable or corrupt file yields the full default config and triggers
save_config (the Bool); a parsed file keeps every present entry, fills every
missing plant_i with its default and a missing last_dry_check with the empty
string, and does not save. -/
def load_config (np : ℕ) :
    StoredConfig → LastCheck × (ℕ → Option PlantConfig) × Bool
  | .missing => (.empty, fun i => if i < np then some (default_plant i) else none, true)
  | .corrupt => (.empty, fun i => if i < np then some (default_plant i) else none, true)
  | .parsed last plants =>
      (last.getD .empty,
        fun i => if i < np then some ((plants i).getD (default_plant i)) else plants i,
        false)

/-- Embedding of the validation and allocation at the start of
PlantMoistureApp.__init__ (lines 17-40): num_plants not a positive integer
raises ValueError (the integer part of that check is num_plants <= 0 here,
the non-integer part is outside an integer-typed embedding); otherwise
self.channels = [None] * num_plants and load_config runs. -/
def app_init (num_plants : ℤ) (stored : StoredConfig) :
    Except String (List (Option Reading) × (LastCheck × (ℕ → Option PlantConfig) × Bool)) :=
  if num_plants ≤ 0 then .error "Invalid num_plants"
  else .ok (List.replicate num_plants.toNat none, load_config num_plants.toNat stored)

theorem state_dry_text (c : String) (p : ℚ) (a : Bool) :
    Status.state ⟨"DRY - WATER NEEDED!", c, p, a⟩ = .DRY := rfl

theorem state_wet_text (c : String) (p : ℚ) (a : Bool) :
    Status.state ⟨"TOO WET", c, p, a⟩ = .WET := rfl

theorem state_perfect_text (c : String) (p : ℚ) (a : Bool) :
    Status.state ⟨"PERFECT", c, p, a⟩ = .PERFECT := rfl

theorem clamp100_nonneg (x : ℚ) : 0 ≤ clamp100 x := le_max_left 0 _

theorem clamp100_le (x : ℚ) : clamp100 x ≤ 100 :=
  max_le (by norm_num) (min_le_left _ _)

/-- C1: the source guards the DRY branch with dry_threshold > 0 (not
dry_threshold = 0 as the spec words it), so for a negative dry threshold the
source returns displayValue 0 while the claimed formula gives 40: at
voltage = -2, dry = -1, wet = 1 the claim fails. -/
theorem C1_counterexample :
    statusTriple (get_moisture_status (-2) (-1) 1) ≠ classify_spec (-2) (-1) 1 := by
  have h1 : statusTriple (get_moisture_status (-2) (-1) 1) = (.DRY, 0, true) := by
    norm_num [get_moisture_status, statusTriple, state_dry_text, clamp100]
  have h2 : classify_spec (-2) (-1) 1 = (.DRY, 40, true) := by
    norm_num [classify_spec, clamp100]
  rw [h1, h2]
  simp

/-- C1 (amended): for thresholds with 0 ≤ dry and wet ≤ 3.3 the classifier
returns exactly the state, displayValue and isAlert the spec formulas claim:
DRY below dry (value 0 when dry = 0), WET above wet (value 100 when
wet = 3.3), otherwise PERFECT (value 20 when wet = dry), alerting exactly on
DRY. -/
theorem C1_amended (v dry wet : ℚ) (h0 : 0 ≤ dry) (h1 : wet ≤ 33/10) :
    statusTriple (get_moisture_status v dry wet) = classify_spec v dry wet := by
  simp only [get_moisture_status, classify_spec]
  by_cases hvd : v < dry
  · simp only [if_pos hvd]
    by_cases hd : dry = 0
    · have hng : ¬ dry > 0 := by rw [hd]; exact lt_irrefl 0
      rw [if_neg hng, if_pos hd]
      norm_num [statusTriple, state_dry_text, state_wet_text, state_perfect_text, clamp100]
    · have hdp : dry > 0 := lt_of_le_of_ne h0 (Ne.symm hd)
      rw [if_pos hdp, if_neg hd]
      simp [statusTriple, state_dry_text, state_wet_text, state_perfect_text]
  · simp only [if_neg hvd]
    by_cases hvw : v > wet
    · simp only [if_pos hvw]
      by_cases hw : wet = 33/10
      · have hng : ¬ (33/10 : ℚ) > wet := by rw [hw]; exact lt_irrefl _
        rw [if_neg hng, if_pos hw]
        norm_num [statusTriple, state_dry_text, state_wet_text, state_perfect_text, clamp100]
      · have hwlt : (33/10 : ℚ) > wet := lt_of_le_of_ne h1 hw
        rw [if_pos hwlt, if_neg hw]
        simp [statusTriple, state_dry_text, state_wet_text, state_perfect_text]
    · simp only [if_neg hvw]
      by_cases hpd : wet = dry
      · have hng : ¬ wet > dry := by rw [hpd]; exact lt_irrefl _
        rw [if_neg hng, if_pos hpd]
        norm_num [statusTriple, state_dry_text, state_wet_text, state_perfect_text, clamp100]
      · have hgt : wet > dry :=
          lt_of_le_of_ne (le_trans (not_lt.1 hvd) (not_lt.1 hvw)) (Ne.symm hpd)
        rw [if_pos hgt, if_neg hpd]
        simp [statusTriple, state_dry_text, state_wet_text, state_perfect_text]

/-- C1 amended witness at voltage 1, thresholds 1.5 and 2.5. -/
theorem C1_amended_witness :
    statusTriple (get_moisture_status 1 (3/2) (5/2)) = classify_spec 1 (3/2) (5/2) :=
  C1_amended 1 (3/2) (5/2) (by norm_num) (by norm_num)

/-- C6: for any voltage and thresholds in the 0 to 3.3 band, including the
degenerate cases dry = wet, dry = 0 and wet = 3.3, the displayValue returned
by the classifier lies in the interval 0 to 100; the embedded function is
total, the source guards every division with a positivity test on its
denominator. -/
theorem C6_display_value_in_range (v dry wet : ℚ)
    (hd0 : 0 ≤ dry) (hd1 : dry ≤ 33/10) (hw0 : 0 ≤ wet) (hw1 : wet ≤ 33/10) :
    0 ≤ (get_moisture_status v dry wet).progress_value ∧
      (get_moisture_status v dry wet).progress_value ≤ 100 := by
  simp only [get_moisture_status]
  split_ifs <;> exact ⟨clamp100_nonneg _, clamp100_le _⟩

/-- C6 witness at the degenerate thresholds dry = wet = 0. -/
theorem C6_display_value_in_range_witness :
    0 ≤ (get_moisture_status 2 0 0).progress_value ∧
      (get_moisture_status 2 0 0).progress_value ≤ 100 :=
  C6_display_value_in_range 2 0 0 (by norm_num) (by norm_num) (by norm_num) (by norm_num)

/-- C8: with thresholds dry = 1.5 and wet = 2.5, voltage 3.0 classifies WET
with displayValue 80 + (3 - 2.5) / (3.3 - 2.5) * 20 = 92.5, which is not
within 0.1 of the claimed 100.0. -/
theorem C8_counterexample :
    ¬ |(get_moisture_status 3 (3/2) (5/2)).progress_value - 100| ≤ 1/10 := by
  have h : (get_moisture_status 3 (3/2) (5/2)).progress_value = 185/2 := by
    norm_num [get_moisture_status, clamp100]
  rw [h, abs_le]
  rintro ⟨hc, -⟩
  norm_num at hc

/-- C8 (amended): with thresholds dry = 1.5 and wet = 2.5 for every sensor,
voltages 1.0, 2.0 and 3.0 classify DRY (with alert), PERFECT and WET, with
displayValues 13.3, 50.0 and 92.5, each within 0.1. -/
theorem C8_amended :
    ((get_moisture_status 1 (3/2) (5/2)).state = .DRY ∧
      (get_moisture_status 1 (3/2) (5/2)).show_alert = true ∧
      |(get_moisture_status 1 (3/2) (5/2)).progress_value - 133/10| ≤ 1/10) ∧
    ((get_moisture_status 2 (3/2) (5/2)).state = .PERFECT ∧
      (get_moisture_status 2 (3/2) (5/2)).show_alert = false ∧
      |(get_moisture_status 2 (3/2) (5/2)).progress_value - 50| ≤ 1/10) ∧
    ((get_moisture_status 3 (3/2) (5/2)).state = .WET ∧
      (get_moisture_status 3 (3/2) (5/2)).show_alert = false ∧
      |(get_moisture_status 3 (3/2) (5/2)).progress_value - 185/2| ≤ 1/10) := by
  have e1 : get_moisture_status 1 (3/2) (5/2) =
      ⟨"DRY - WATER NEEDED!", "#FF9999", 40/3, true⟩ := by
    norm_num [get_moisture_status, clamp100]
  have e2 : get_moisture_status 2 (3/2) (5/2) = ⟨"PERFECT", "#99FF99", 50, false⟩ := by
    norm_num [get_moisture_status, clamp100]
  have e3 : get_moisture_status 3 (3/2) (5/2) = ⟨"TOO WET", "#99CCFF", 185/2, false⟩ := by
    norm_num [get_moisture_status, clamp100]
  rw [e1, e2, e3]
  refine ⟨⟨rfl, rfl, ?_⟩, ⟨rfl, rfl, ?_⟩, ⟨rfl, rfl, ?_⟩⟩ <;>
    (rw [abs_le]; constructor <;> norm_num)

theorem gui_plants_append (a b : List Dispatch) :
    gui_plants (a ++ b) = gui_plants a ++ gui_plants b :=
  List.filterMap_append _ _ _

theorem gui_plants_process (s : AppState) (randv : ℕ → ℚ) (i : ℕ) (dry0 : Finset String) :
    gui_plants (process_plant s randv i dry0).2 = [i] := by
  simp only [process_plant]
  split_ifs <;> simp [gui_plants]

theorem gui_plants_run (s : AppState) (randv : ℕ → ℚ) (l : List ℕ) (dry0 : Finset String) :
    gui_plants (run_plants s randv l dry0).2 = l := by
  induction l generalizing dry0 with
  | nil => simp [run_plants, gui_plants]
  | cons i rest ih =>
    simp only [run_plants, gui_plants_append, gui_plants_process, ih]
    rfl

/-- C5: the daily gate fires exactly when last_dry_check is empty,
unparseable, or dated strictly before today; a firing cycle stamps
last_dry_check with the current timestamp and saves the config, after which
the gate cannot fire again on the same day; a non-firing cycle leaves
last_dry_check alone and does not save. -/
theorem C5_daily_gate (s : AppState) (today : ℕ) (randv : ℕ → ℚ) :
    (daily_check_needed today s.last_dry_check = true ↔
      s.last_dry_check = .empty ∨ s.last_dry_check = .invalid ∨
        ∃ d, s.last_dry_check = .stamp d ∧ d < today) ∧
    ((monitor_cycle s today randv).2.2 = daily_check_needed today s.last_dry_check) ∧
    (daily_check_needed today s.last_dry_check = true →
      (monitor_cycle s today randv).1.last_dry_check = .stamp today ∧
        daily_check_needed today (monitor_cycle s today randv).1.last_dry_check = false) ∧
    (daily_check_needed today s.last_dry_check = false →
      (monitor_cycle s today randv).1.last_dry_check = s.last_dry_check ∧
        (monitor_cycle s today randv).2.2 = false) := by
  refine ⟨?_, ?_, ?_, ?_⟩
  · cases h : s.last_dry_check with
    | empty => simp [daily_check_needed]
    | invalid => simp [daily_check_needed]
    | stamp d =>
      simp only [daily_check_needed, decide_eq_true_eq]
      constructor
      · intro hd
        exact Or.inr (Or.inr ⟨d, rfl, hd⟩)
      · rintro (hc | hc | ⟨d2, hd2, hlt⟩)
        · exact absurd hc (by simp)
        · exact absurd hc (by simp)
        · cases hd2
          exact hlt
  · simp [monitor_cycle]
  · intro h
    constructor
    · simp [monitor_cycle, h]
    · have hlc : (monitor_cycle s today randv).1.last_dry_check = .stamp today := by
        simp [monitor_cycle, h]
      rw [hlc]
      simp [daily_check_needed]
  · intro h
    constructor
    · simp [monitor_cycle, h]
    · simp [monitor_cycle, h]

/-- C5 witness: with last_dry_check absent (empty) the gate fires at day 3,
stamps day 3, saves, and will not fire again that day. -/
theorem C5_daily_gate_witness :
    daily_check_needed 3 LastCheck.empty = true ∧
      (monitor_cycle ⟨1, true, fun _ => none, fun _ => ⟨3/2, 5/2, 2, "Plant 1", ""⟩, .empty, ∅⟩ 3
          (fun _ => 1)).1.last_dry_check = .stamp 3 := by
  have h := C5_daily_gate ⟨1, true, fun _ => none, fun _ => ⟨3/2, 5/2, 2, "Plant 1", ""⟩, .empty, ∅⟩ 3 (fun _ => 1)
  exact ⟨by simp [daily_check_needed], (h.2.2.1 (by simp [daily_check_needed])).1⟩

/-- C7: save_manual accepts a threshold request exactly when
0 <= dry <= 3.3, 0 <= wet <= 3.3 and dry < wet; a rejected request leaves
the stored entry untouched and does not save; an accepted one writes both
thresholds and saves. -/
theorem C7_update_thresholds (cfg : PlantConfig) (dry wet : ℚ) :
    ((save_manual cfg dry wet).2 = true ↔
      (0 ≤ dry ∧ dry ≤ 33/10 ∧ 0 ≤ wet ∧ wet ≤ 33/10 ∧ dry < wet)) ∧
    ((save_manual cfg dry wet).2 = false → save_manual cfg dry wet = (cfg, false)) ∧
    ((save_manual cfg dry wet).2 = true →
      (save_manual cfg dry wet).1 =
        { cfg with dry_threshold := dry, wet_threshold := wet }) := by
  unfold save_manual
  split_ifs with h <;> simp [h]

theorem dry_status_eval : get_moisture_status 1 (3/2) (5/2) = dry_status := by
  norm_num [get_moisture_status, dry_status, clamp100]

theorem c2_cycle1_eval :
    c2_cycle1 = ({ dry_plant_state with dry_plants := {"Plant 1"} },
      [.gui 0 310 1 dry_status, .addDry "Plant 1"], false) := by
  simp [c2_cycle1, monitor_cycle, daily_check_needed, run_plants, process_plant,
    read_channel, dry_plant_state, demo_plant, dry_status_eval, dry_status]

theorem c2_cycle2_eval :
    c2_cycle2 = ({ dry_plant_state with
        last_dry_check := LastCheck.stamp 1,
        dry_plants := {"Plant 1"} },
      [.gui 0 310 1 dry_status, .addDry "Plant 1"], true) := by
  have h1 : c2_cycle1.1 = { dry_plant_state with dry_plants := {"Plant 1"} } := by
    rw [c2_cycle1_eval]
  rw [c2_cycle2, h1]
  simp [monitor_cycle, daily_check_needed, run_plants, process_plant,
    read_channel, dry_plant_state, demo_plant, dry_status_eval, dry_status]

/-- C2: the daily gate clears current_dry_plants (line 404), so a sensor that
was already alerting before a day rollover, and is still dry after it, gets a
second Added event (a duplicate dry-listbox insertion) without any
not-alerting interlude: cycle 1 emits Added for Plant 1 and leaves it in the
alert set, and the rollover cycle emits Added for it again, with no Removed
in between. -/
theorem C2_duplicate_added_at_rollover :
    Dispatch.addDry "Plant 1" ∈ c2_cycle1.2.1 ∧
    "Plant 1" ∈ c2_cycle1.1.dry_plants ∧
    Dispatch.addDry "Plant 1" ∈ c2_cycle2.2.1 ∧
    Dispatch.removeDry "Plant 1" ∉ c2_cycle2.2.1 := by
  rw [c2_cycle1_eval, c2_cycle2_eval]
  refine ⟨by simp, by simp, by simp, by simp⟩

/-- C4: on a cycle where the daily gate does not fire, the loop still
processes and dispatches a GUI update for every sensor, not only the primary
sensor 0: with two sensors the dispatched plant indices are [0, 1], not [0]. -/
theorem C4_counterexample :
    (monitor_cycle two_plant_state 5 (fun _ => 0)).2.2 = false ∧
    gui_plants (monitor_cycle two_plant_state 5 (fun _ => 0)).2.1 = [0, 1] ∧
    gui_plants (monitor_cycle two_plant_state 5 (fun _ => 0)).2.1 ≠ [0] := by
  refine ⟨by simp [monitor_cycle, daily_check_needed, two_plant_state], ?_, ?_⟩
  · rw [monitor_cycle]
    simp only [gui_plants_run]
    simp [two_plant_state, List.range_succ]
  · rw [monitor_cycle]
    simp only [gui_plants_run]
    simp [two_plant_state, List.range_succ]

/-- C4 (amended): on every monitoring cycle, whether or not the daily gate
fires, the loop reads, classifies and dispatches for every sensor
0 .. num_plants - 1 in index order; there is no primary-only fast path. -/
theorem C4_amended (s : AppState) (today : ℕ) (randv : ℕ → ℚ) :
    gui_plants (monitor_cycle s today randv).2.1 = List.range s.num_plants := by
  rw [monitor_cycle]
  simp only [gui_plants_run]

/-- C9: with the reading source not ready, the cycle does not surface any
distinct unavailable result: its dispatches are identical to those of a
healthy cycle whose sensor really reads 1.0 V (the source substitutes
raw_value = 0 and voltage = random.uniform(0.0, 3.3), here drawn as 1.0, and
classifies it like a real reading), and the cycle does dispatch a GUI update
for the sensor. -/
theorem C9_counterexample :
    (monitor_cycle unready_state 5 (fun _ => 1)).2.1 =
      (monitor_cycle ready_state 5 (fun _ => 1)).2.1 ∧
    gui_plants (monitor_cycle unready_state 5 (fun _ => 1)).2.1 = [0] := by
  constructor
  · rfl
  · rw [monitor_cycle]
    simp only [gui_plants_run]
    simp [unready_state, List.range_succ]

/-- C9 (amended): whenever the source is not ready, or a channel has never
received data, the per-plant body substitutes raw_value 0 and the simulated
voltage randv i, and dispatches it classified by get_moisture_status exactly
like a real reading; no unavailable marker exists. -/
theorem C9_amended (np : ℕ) (hw : Bool) (ch : ℕ → Option Reading)
    (pl : ℕ → PlantConfig) (lc : LastCheck) (dp : Finset String)
    (randv : ℕ → ℚ) (i : ℕ) (dry0 : Finset String) :
    (process_plant ⟨np, false, ch, pl, lc, dp⟩ randv i dry0).2.head? =
      some (.gui i 0 (randv i)
        (get_moisture_status (randv i) (pl i).dry_threshold (pl i).wet_threshold)) ∧
    (process_plant ⟨np, hw, fun _ => none, pl, lc, dp⟩ randv i dry0).2.head? =
      some (.gui i 0 (randv i)
        (get_moisture_status (randv i) (pl i).dry_threshold (pl i).wet_threshold)) := by
  constructor
  · simp only [process_plant, read_channel]
    norm_num
    split_ifs <;> simp
  · simp only [process_plant, read_channel, ite_self]
    split_ifs <;> simp

theorem apply_msg_some {msg : ℕ → Option ℚ} {i : ℕ} {v : ℚ}
    (c : ℕ → Option Reading) (hm : msg i = some v) :
    apply_msg msg c i = Function.update c i (some (mk_reading v)) := by
  simp [apply_msg, hm]

theorem apply_msg_none {msg : ℕ → Option ℚ} {i : ℕ}
    (c : ℕ → Option Reading) (hm : msg i = none) :
    apply_msg msg c i = c := by
  simp [apply_msg, hm]

theorem receive_data_point (np : ℕ) (ch : ℕ → Option Reading)
    (msg : ℕ → Option ℚ) (i : ℕ) :
    receive_data np ch msg i =
      if i < np then
        match msg i with
        | some v => some (mk_reading v)
        | none => ch i
      else ch i := by
  induction np with
  | zero => simp [receive_data]
  | succ n ih =>
    have hr : receive_data (n + 1) ch msg =
        apply_msg msg (receive_data n ch msg) n := by
      simp [receive_data, List.range_succ, List.foldl_append]
    rw [hr]
    cases hm : msg n with
    | none =>
      rw [apply_msg_none _ hm, ih]
      by_cases hin : i = n
      · subst hin
        simp [hm, Nat.lt_succ_self]
      · by_cases hlt : i < n
        · simp [hlt, Nat.lt_succ_of_lt hlt]
        · have h2 : ¬ i < n + 1 := by omega
          simp [hlt, h2]
    | some v =>
      rw [apply_msg_some _ hm, Function.update_apply]
      by_cases hin : i = n
      · subst hin
        simp [hm, Nat.lt_succ_self]
      · rw [if_neg hin, ih]
        by_cases hlt : i < n
        · simp [hlt, Nat.lt_succ_of_lt hlt]
        · have h2 : ¬ i < n + 1 := by omega
          simp [hlt, h2]

/-- C3: receive_data performs no range validation, so the out-of-range
message plant_0 = 5.0 (5.0 > 3.3) is applied: sensor 0 goes from a
last-known voltage of 1.0 to 5.0 instead of staying unchanged as the claim
requires. -/
theorem C3_counterexample :
    ¬ ((5 : ℚ) ≤ 33/10) ∧
    Option.map Reading.voltage (ch_before 0) = some 1 ∧
    Option.map Reading.voltage (receive_data 1 ch_before out_of_range_msg 0) = some 5 := by
  refine ⟨by norm_num, by simp [ch_before], ?_⟩
  rw [receive_data_point]
  simp [out_of_range_msg, mk_reading]

/-- C3 (amended): a numeric value reported for a known sensor id
(i < num_plants) is always applied, in or out of range, overwriting the
last-known reading with value int(v * 1023 / 3.3) and voltage v
(last-write-wins); a sensor id without a key in the message, or outside
0 .. num_plants - 1, keeps exactly its previous channel content. -/
theorem C3_amended (np : ℕ) (ch : ℕ → Option Reading) (msg : ℕ → Option ℚ) (i : ℕ) :
    (∀ v : ℚ, i < np → msg i = some v →
      receive_data np ch msg i = some ⟨pytrunc (v * 1023 / (33/10)), v⟩) ∧
    (msg i = none → receive_data np ch msg i = ch i) ∧
    (¬ i < np → receive_data np ch msg i = ch i) := by
  refine ⟨?_, ?_, ?_⟩
  · intro v hi hm
    rw [receive_data_point, if_pos hi, hm]
    rfl
  · intro hm
    rw [receive_data_point, hm]
    simp
  · intro hi
    rw [receive_data_point, if_neg hi]

/-- C10: app_init fails with ValueError exactly on non-positive num_plants;
for positive N it allocates exactly N channel slots, all None, and the
loaded configuration has an entry for every sensor id 0 .. N-1 whatever the
backing file held. -/
theorem C10_init_validation (n : ℤ) (stored : StoredConfig) :
    (n ≤ 0 → app_init n stored = .error "Invalid num_plants") ∧
    (0 < n → ∃ ch rest, app_init n stored = .ok (ch, rest) ∧
      ch.length = n.toNat ∧ (∀ r ∈ ch, r = none) ∧
      ∀ i < n.toNat, (rest.2.1 i).isSome = true) := by
  constructor
  · intro h
    simp [app_init, h]
  · intro h
    have hne : ¬ n ≤ 0 := not_le.2 h
    refine ⟨List.replicate n.toNat none, load_config n.toNat stored, ?_, ?_, ?_, ?_⟩
    · simp [app_init, hne]
    · simp
    · intro r hr
      exact List.eq_of_mem_replicate hr
    · intro i hi
      cases stored with
      | missing =>
        show (if i < n.toNat then some (default_plant i) else none).isSome = true
        rw [if_pos hi]
        rfl
      | corrupt =>
        show (if i < n.toNat then some (default_plant i) else none).isSome = true
        rw [if_pos hi]
        rfl
      | parsed last plants =>
        show (if i < n.toNat then some ((plants i).getD (default_plant i))
          else plants i).isSome = true
        rw [if_pos hi]
        rfl

end PlantMonitor

